import Mathlib

/-!
# Verification of `rgwml_cli.c`

A shallow embedding of the core of `src/rgwml_cli.c` — the result-set model,
the native-to-portable type mapping, the bounded rendering/truncation
algorithm, the construction/rollback path and the teardown path — together
with theorems settling the specification claims about them.

Machine integers are modelled as `Nat`; `size_t` wrap-around is made explicit
where it matters.  C strings are modelled as `String` at the code-unit level
(`strlen` becomes `String.length`), exact for single-byte text; the cell
truncation helper, whose behaviour depends on the contents its shared stack
buffer retains between calls, is additionally modelled byte for byte on
explicit buffer state.
-/

set_option autoImplicit false
set_option maxRecDepth 8192

/-! ## TypeMapper (src lines 68-132) -/

/-- The driver-defined enumeration of native column-type tags
(`enum enum_field_types` from `mysql.h`).  The constructors up to
`MYSQL_TYPE_GEOMETRY` are the tags the `switch` in `mysql_type_to_c_type`
names; the remaining constructors (`MYSQL_TYPE_TIMESTAMP2`,
`MYSQL_TYPE_DATETIME2`, `MYSQL_TYPE_TIME2`, `MYSQL_TYPE_TYPED_ARRAY`,
`MYSQL_TYPE_INVALID`, `MYSQL_TYPE_BOOL`) are tags of the same driver
enumeration that fall to the `default` branch. -/
inductive enum_field_types where
  | MYSQL_TYPE_DECIMAL
  | MYSQL_TYPE_TINY
  | MYSQL_TYPE_SHORT
  | MYSQL_TYPE_LONG
  | MYSQL_TYPE_FLOAT
  | MYSQL_TYPE_DOUBLE
  | MYSQL_TYPE_NULL
  | MYSQL_TYPE_TIMESTAMP
  | MYSQL_TYPE_LONGLONG
  | MYSQL_TYPE_INT24
  | MYSQL_TYPE_DATE
  | MYSQL_TYPE_TIME
  | MYSQL_TYPE_DATETIME
  | MYSQL_TYPE_YEAR
  | MYSQL_TYPE_NEWDATE
  | MYSQL_TYPE_VARCHAR
  | MYSQL_TYPE_BIT
  | MYSQL_TYPE_JSON
  | MYSQL_TYPE_NEWDECIMAL
  | MYSQL_TYPE_ENUM
  | MYSQL_TYPE_SET
  | MYSQL_TYPE_TINY_BLOB
  | MYSQL_TYPE_MEDIUM_BLOB
  | MYSQL_TYPE_LONG_BLOB
  | MYSQL_TYPE_BLOB
  | MYSQL_TYPE_VAR_STRING
  | MYSQL_TYPE_STRING
  | MYSQL_TYPE_GEOMETRY
  | MYSQL_TYPE_TIMESTAMP2
  | MYSQL_TYPE_DATETIME2
  | MYSQL_TYPE_TIME2
  | MYSQL_TYPE_TYPED_ARRAY
  | MYSQL_TYPE_INVALID
  | MYSQL_TYPE_BOOL
  deriving DecidableEq

/-- `struct TypeMapping` (src lines 68-71). -/
structure TypeMapping where
  mysql_type : String
  c_type : String
  deriving DecidableEq

/-- `mysql_type_to_c_type` (src lines 73-132), clause for clause. -/
def mysql_type_to_c_type : enum_field_types → TypeMapping
  | .MYSQL_TYPE_DECIMAL => ⟨"DECIMAL", "double"⟩
  | .MYSQL_TYPE_NEWDECIMAL => ⟨"DECIMAL", "double"⟩
  | .MYSQL_TYPE_TINY => ⟨"TINYINT", "int8_t"⟩
  | .MYSQL_TYPE_SHORT => ⟨"SMALLINT", "int16_t"⟩
  | .MYSQL_TYPE_LONG => ⟨"INT", "int32_t"⟩
  | .MYSQL_TYPE_FLOAT => ⟨"FLOAT", "float"⟩
  | .MYSQL_TYPE_DOUBLE => ⟨"DOUBLE", "double"⟩
  | .MYSQL_TYPE_NULL => ⟨"NULL", "void"⟩
  | .MYSQL_TYPE_TIMESTAMP => ⟨"TIMESTAMP", "char*"⟩
  | .MYSQL_TYPE_LONGLONG => ⟨"BIGINT", "int64_t"⟩
  | .MYSQL_TYPE_INT24 => ⟨"MEDIUMINT", "int32_t"⟩
  | .MYSQL_TYPE_DATE => ⟨"DATE", "char*"⟩
  | .MYSQL_TYPE_TIME => ⟨"TIME", "char*"⟩
  | .MYSQL_TYPE_DATETIME => ⟨"DATETIME", "char*"⟩
  | .MYSQL_TYPE_YEAR => ⟨"YEAR", "int"⟩
  | .MYSQL_TYPE_NEWDATE => ⟨"NEWDATE", "char*"⟩
  | .MYSQL_TYPE_VARCHAR => ⟨"VARCHAR", "char*"⟩
  | .MYSQL_TYPE_BIT => ⟨"BIT", "uint8_t"⟩
  | .MYSQL_TYPE_JSON => ⟨"JSON", "char*"⟩
  | .MYSQL_TYPE_ENUM => ⟨"ENUM", "char*"⟩
  | .MYSQL_TYPE_SET => ⟨"SET", "char*"⟩
  | .MYSQL_TYPE_TINY_BLOB => ⟨"TINYBLOB", "char*"⟩
  | .MYSQL_TYPE_MEDIUM_BLOB => ⟨"MEDIUMBLOB", "char*"⟩
  | .MYSQL_TYPE_LONG_BLOB => ⟨"LONGBLOB", "char*"⟩
  | .MYSQL_TYPE_BLOB => ⟨"BLOB", "char*"⟩
  | .MYSQL_TYPE_VAR_STRING => ⟨"STRING", "char*"⟩
  | .MYSQL_TYPE_STRING => ⟨"STRING", "char*"⟩
  | .MYSQL_TYPE_GEOMETRY => ⟨"GEOMETRY", "char*"⟩
  | _ => ⟨"UNKNOWN", "void"⟩

/-- The tags named by the spec's character/text/blob/json/enum/set/geometry
category (§4.1). -/
@[reducible] def isTextCategoryTag (t : enum_field_types) : Prop :=
  t ∈ [enum_field_types.MYSQL_TYPE_VARCHAR, .MYSQL_TYPE_JSON, .MYSQL_TYPE_ENUM,
       .MYSQL_TYPE_SET, .MYSQL_TYPE_TINY_BLOB, .MYSQL_TYPE_MEDIUM_BLOB,
       .MYSQL_TYPE_LONG_BLOB, .MYSQL_TYPE_BLOB, .MYSQL_TYPE_VAR_STRING,
       .MYSQL_TYPE_STRING, .MYSQL_TYPE_GEOMETRY]

/-- The tags of the driver enumeration that the `switch` does not name, i.e.
the ones that reach the `default` branch. -/
@[reducible] def isUnrecognizedTag (t : enum_field_types) : Prop :=
  t ∈ [enum_field_types.MYSQL_TYPE_TIMESTAMP2, .MYSQL_TYPE_DATETIME2,
       .MYSQL_TYPE_TIME2, .MYSQL_TYPE_TYPED_ARRAY, .MYSQL_TYPE_INVALID,
       .MYSQL_TYPE_BOOL]

/-! ## Process exit status (src lines 349-397) -/

def EXIT_SUCCESS : Nat := 0

def EXIT_FAILURE : Nat := 1

/-- The exit code `main` (src lines 349-397) produces, as a function of the
outcomes of its external collaborators, in the order the code tests them:
`argc` (line 350), `read_file` success (line 360), `cJSON_Parse` success
(line 366), `get_db_preset` success (line 373), and `execute_mysql_query`
success (line 386).  When the query fails the code prints
`"Query execution failed."` to stderr (line 390) but still falls through to
`return EXIT_SUCCESS` (line 396); the `querySucceeds` flag therefore does not
affect the returned code. -/
def mainExitCode (argc : Nat) (readOk parseOk presetFound querySucceeds : Bool) : Nat :=
  if argc ≠ 3 then EXIT_FAILURE
  else if !readOk then EXIT_FAILURE
  else if !parseOk then EXIT_FAILURE
  else if !presetFound then EXIT_FAILURE
  else
    -- both branches of `if (result)` fall through to `return EXIT_SUCCESS`
    let _ := querySucceeds
    EXIT_SUCCESS

/-! ## Allocation-level model of construction and teardown
(src lines 9-33 and 134-228)

The builder and the teardown manipulate raw pointer arrays, so for the claims
about them the C struct is modelled at the allocation level: a string slot of
a backing array is either still uninitialized (`malloc` leaves indeterminate
bytes), holds a null pointer (a failed `strdup` wrote `NULL`), or holds an
allocated string; a backing array pointer is `none` when its own `malloc`
failed.  Allocation failures are injected by an oracle `alloc : Nat → Bool`
consulted once per `malloc`/`strdup` in program order. -/

/-- One `char *` slot of a backing array. -/
inductive Slot where
  | uninit
  | nullPtr
  | str (s : String)
  deriving DecidableEq

/-- `struct QueryResult` (src lines 9-16) at the allocation level.  `rows` is
the row-major cell array of `rows_count * cols_count` slots. -/
structure QueryResultRaw where
  rows : Option (List Slot)
  headers : Option (List Slot)
  mysql_types : Option (List Slot)
  c_types : Option (List Slot)
  rows_count : Nat
  cols_count : Nat
  deriving DecidableEq

/-- What `free(p)` does to one slot: freeing an uninitialized (indeterminate)
pointer is indetined behavior, `free(NULL)` is a no-op, freeing an allocated
string releases it.  Returns the number of strings released. -/
def freeSlot (s : Slot) : Except String Nat :=
  match s with
  | .uninit => .error "free of uninitialized pointer"
  | .nullPtr => .ok 0
  | .str _ => .ok 1

/-- The loop `for (i = 0; i < n; i++) free(arr[i]);` over a backing array
(src lines 20-22): when `n = 0` the body never runs and the array pointer is
not dereferenced; otherwise a `none` array is a null-pointer dereference, and
each visited slot is freed per `freeSlot`.  Reading past the array is modelled
as an error as well (it cannot arise from the builder below). -/
def freeArraySlots (arr : Option (List Slot)) (n : Nat) : Except String Nat :=
  if n = 0 then .ok 0
  else
    match arr with
    | none => .error "null array dereference"
    | some l =>
      (List.range n).foldlM
        (fun acc i => do
          let k ← (if i < l.length then freeSlot (l.getD i .uninit) else .error "out of bounds read")
          pure (acc + k)) 0

/-- The loop `for (i = 0; i < cols_count; i++)` freeing `headers[i]`,
`mysql_types[i]` and `c_types[i]` together (src lines 23-27). -/
def freeColsSlots (h m c : Option (List Slot)) (n : Nat) : Except String Nat :=
  if n = 0 then .ok 0
  else
    match h, m, c with
    | some lh, some lm, some lc =>
      (List.range n).foldlM
        (fun acc i => do
          let kh ← (if i < lh.length then freeSlot (lh.getD i .uninit) else .error "out of bounds read")
          let km ← (if i < lm.length then freeSlot (lm.getD i .uninit) else .error "out of bounds read")
          let kc ← (if i < lc.length then freeSlot (lc.getD i .uninit) else .error "out of bounds read")
          pure (acc + kh + km + kc)) 0
    | _, _, _ => .error "null array dereference"

/-- `free_query_result` (src lines 18-33).  A `none` argument models the
`if (!result) return;` guard.  The trailing `free` of the four array pointers
and of the struct itself are no-ops in this model (`free(NULL)` included).
`.error` marks indetined behavior reached during the teardown; `.ok k` means
the teardown completed, releasing `k` strings. -/
def free_query_result (result : Option QueryResultRaw) : Except String Nat :=
  match result with
  | none => .ok 0
  | some r => do
    let k1 ← freeArraySlots r.rows (r.rows_count * r.cols_count)
    let k2 ← freeColsSlots r.headers r.mysql_types r.c_types r.cols_count
    pure (k1 + k2)

/-- Column metadata handed over by the driver (`MYSQL_FIELD`: name and native
type tag), as consumed at src lines 191-195. -/
structure MysqlField where
  name : String
  ftype : enum_field_types
  deriving DecidableEq

/-- Mutable state of the builder: the prefixes of the four backing arrays
written so far (the unwritten remainder of each array is uninitialized), and
the index `k` of the next allocation the oracle will answer. -/
structure BuildSt where
  cells : List Slot
  headers : List Slot
  mysql_types : List Slot
  c_types : List Slot
  k : Nat
  deriving DecidableEq

/-- One `strdup(s)` against the oracle: a successful call yields the string,
a failed one yields `NULL`. -/
def allocSlot (alloc : Nat → Bool) (k : Nat) (s : String) : Slot :=
  if alloc k then .str s else .nullPtr

/-- The per-column loop (src lines 191-203): for each column, `strdup` the
name and the two type names resolved through `mysql_type_to_c_type`, then
check the three results; on the first `NULL` the loop stops with the state as
written so far (the C code then hands that state to `free_query_result`). -/
def buildColsLoop (alloc : Nat → Bool) : List MysqlField → BuildSt → Except BuildSt BuildSt
  | [], st => .ok st
  | f :: fs, st =>
    let h := allocSlot alloc st.k f.name
    let m := allocSlot alloc (st.k + 1) (mysql_type_to_c_type f.ftype).mysql_type
    let c := allocSlot alloc (st.k + 2) (mysql_type_to_c_type f.ftype).c_type
    let st' : BuildSt :=
      { st with
        headers := st.headers ++ [h]
        mysql_types := st.mysql_types ++ [m]
        c_types := st.c_types ++ [c]
        k := st.k + 3 }
    if h ≠ .nullPtr ∧ m ≠ .nullPtr ∧ c ≠ .nullPtr then buildColsLoop alloc fs st'
    else .error st'

/-- The cell loop (src lines 205-222) over the row-major sequence of native
values: a present value is `strdup`ed, a database `NULL` is replaced by
`strdup("NULL")`; on a failed `strdup` the loop stops with the state as
written so far. -/
def buildCellsLoop (alloc : Nat → Bool) : List (Option String) → BuildSt → Except BuildSt BuildSt
  | [], st => .ok st
  | v :: vs, st =>
    let s := allocSlot alloc st.k (v.getD "NULL")
    let st' : BuildSt := { st with cells := st.cells ++ [s], k := st.k + 1 }
    if s ≠ .nullPtr then buildCellsLoop alloc vs st'
    else .error st'

/-- The row-major sequence of native values the cell loop reads: for each
fetched row, `row[i]` for `i < cols_count` (src lines 206-207). -/
def flatCells (cols : Nat) (raws : List (List (Option String))) : List (Option String) :=
  (raws.map (fun row => (List.range cols).map (fun i => row.getD i none))).flatten

/-- A written prefix viewed as the whole backing array: the slots past the
prefix are still uninitialized. -/
def padSlots (l : List Slot) (n : Nat) : List Slot :=
  l ++ List.replicate (n - l.length) Slot.uninit

/-- The `QueryResultRaw` visible at a point where all four array `malloc`s
have succeeded and the prefixes of `st` have been written. -/
def assembleRaw (st : BuildSt) (rows_count cols_count : Nat) : QueryResultRaw :=
  { rows := some (padSlots st.cells (rows_count * cols_count))
    headers := some (padSlots st.headers cols_count)
    mysql_types := some (padSlots st.mysql_types cols_count)
    c_types := some (padSlots st.c_types cols_count)
    rows_count := rows_count
    cols_count := cols_count }

instance instDecEqExceptString {α : Type} [DecidableEq α] :
    DecidableEq (Except String α) := fun a b =>
  match a, b with
  | .ok x, .ok y =>
    if h : x = y then isTrue (by rw [h]) else isFalse (fun hh => by cases hh; exact h rfl)
  | .error x, .error y =>
    if h : x = y then isTrue (by rw [h]) else isFalse (fun hh => by cases hh; exact h rfl)
  | .ok _, .error _ => isFalse (fun hh => by cases hh)
  | .error _, .ok _ => isFalse (fun hh => by cases hh)

/-- Outcome of `execute_mysql_query` from the `malloc` of the result struct
onward (src lines 169-228): success with the fully written arrays, an early
return with nothing allocated (struct `malloc` failed, line 170), or a
failure on which `free_query_result` was run — carrying that teardown's
outcome (`.error` = the rollback itself hit indetined behavior). -/
inductive BuildOutcome where
  | success (r : QueryResultRaw)
  | noResult
  | failed (rollback : Except String Nat)
  deriving DecidableEq

/-- The `QueryResultRaw` visible at the line-183 check when one of the four
array `malloc`s (allocations k1-k4, src lines 178-181) has failed: each array
pointer is the `malloc` result (all slots uninitialized) or `NULL`. -/
def earlyFailRaw (alloc : Nat → Bool) (rows_count cols_count : Nat) : QueryResultRaw :=
  { rows := if alloc 1 then some (List.replicate (rows_count * cols_count) .uninit) else none
    headers := if alloc 2 then some (List.replicate cols_count .uninit) else none
    mysql_types := if alloc 3 then some (List.replicate cols_count .uninit) else none
    c_types := if alloc 4 then some (List.replicate cols_count .uninit) else none
    rows_count := rows_count
    cols_count := cols_count }

/-- `execute_mysql_query` (src lines 134-228) from the point where the cursor
is drained: `rows_count`/`cols_count` come from the driver (lines 165-166),
allocation k0 is the struct `malloc` (line 169), k1-k4 are the four array
`malloc`s (lines 178-181) checked together at line 183 (`!rows || !headers ||
!mysql_types || !c_types`), then the per-column loop and the cell loop run,
each rolling back through `free_query_result` on its first failure (lines
185, 198, 215). -/
def execute_mysql_query_model (alloc : Nat → Bool) (fields : List MysqlField)
    (raws : List (List (Option String))) : BuildOutcome :=
  let rows_count := raws.length
  let cols_count := fields.length
  if !alloc 0 then .noResult
  else if !(alloc 1 && alloc 2 && alloc 3 && alloc 4) then
    .failed (free_query_result (some (earlyFailRaw alloc rows_count cols_count)))
  else
    match buildColsLoop alloc fields ⟨[], [], [], [], 5⟩ with
    | .error st => .failed (free_query_result (some (assembleRaw st rows_count cols_count)))
    | .ok st =>
      match buildCellsLoop alloc (flatCells cols_count raws) st with
      | .error st' => .failed (free_query_result (some (assembleRaw st' rows_count cols_count)))
      | .ok st' => .success (assembleRaw st' rows_count cols_count)

/-! ## Renderer (src lines 230-347)

`print_query_result` only ever runs on a fully constructed result (src line
386), so the renderer is modelled on a value-level view of the struct in
which every slot holds a string. -/

/-- `struct QueryResult` (src lines 9-16) at the value level, as the renderer
sees it: `rows` is the row-major cell text in a flat list of
`rows_count * cols_count` entries. -/
structure QueryResult where
  rows : List String
  headers : List String
  mysql_types : List String
  c_types : List String
  rows_count : Nat
  cols_count : Nat
  deriving DecidableEq

/-- `result->rows[i * result->cols_count + j]` (src lines 306, 314). -/
def cellAt (r : QueryResult) (i j : Nat) : String :=
  r.rows.getD (i * r.cols_count + j) ""

/-- The indices of the head column loop `for (j = 0; j < 3 && j < cols_count;
j++)` (src lines 254, 272, 290, 305). -/
def headIdx (cols : Nat) : List Nat := List.range (min 3 cols)

/-- The indices of the tail column loop `for (j = cols_count - 4;
j < cols_count; j++)` (src lines 258, 279, 297, 313); the loop is only
entered under `cols_count > 4`. -/
def tailIdx (cols : Nat) : List Nat := List.range' (cols - 4) (cols - (cols - 4))

/-- `hidden_columns` (src line 267). -/
def hidden_columns (cols : Nat) : Nat := if cols > 7 then cols - 7 else 0

/-- `hidden_columns_header`, written by `snprintf(.., "<<+%d cols>>",
hidden_columns)` (src lines 268-269). -/
def hidden_columns_header (cols : Nat) : String :=
  "<<+" ++ toString (hidden_columns cols) ++ " cols>>"

/-- `bufferSize` (src lines 253-263): starts at 1, is raised to each displayed
head/tail header length that exceeds it, then incremented by one for the
terminator. -/
def bufferSize (r : QueryResult) : Nat :=
  let b0 := (headIdx r.cols_count).foldl
    (fun b j => if (r.headers.getD j "").length > b then (r.headers.getD j "").length else b) 1
  let b1 :=
    if r.cols_count > 4 then
      (tailIdx r.cols_count).foldl
        (fun b j => if (r.headers.getD j "").length > b then (r.headers.getD j "").length else b) b0
    else b0
  b1 + 1

/-! ### Byte-level model of `safe_strncpy` (src lines 231-240)

`safe_strncpy(dest, src, n)` operates on the single stack buffer
`char buffer[bufferSize]` (src line 264) that is declared uninitialized and
reused for every displayed cell, with `n = bufferSize - 1` at both call
sites.  In the truncation branch `strncpy(dest, src, n - 3)` writes no
terminator, so the following `strcat(dest, "...")` appends at a position
determined by the buffer's previous contents; the function is therefore not
a pure function of `(src, n)` and is modelled on explicit buffer state.  A
byte is indeterminate (never written), the terminator, or an ordinary
character (C strings carry no interior terminator, so every `String`
character counts as non-zero).  `.error` marks indetined behavior: reading
an indeterminate byte, or reading/writing past the end of the buffer. -/

/-- One byte of the shared cell buffer. -/
inductive Byte where
  | indet
  | nul
  | chr (c : Char)
  deriving DecidableEq

/-- The freshly declared `char buffer[sz]` (src line 264): every byte
indeterminate. -/
def freshBuffer (sz : Nat) : List Byte := List.replicate sz .indet

/-- `strncpy(dest, src, count)`: writes exactly `count` bytes at the start of
`dest` — the first `min(strlen(src), count)` characters of `src`, then
terminator padding if `src` is shorter — leaving the rest of `dest`
untouched.  Writing past the buffer is indetined behavior. -/
def strncpyModel (buf : List Byte) (src : String) (count : Nat) :
    Except String (List Byte) :=
  if count ≤ buf.length then
    .ok ((src.toList.take count).map Byte.chr
      ++ List.replicate (count - src.length) Byte.nul
      ++ buf.drop count)
  else .error "strncpy writes past the end of the buffer"

/-- Index of the first terminator in the buffer, scanning from the front as
`strcat`/`printf` do: reading an indeterminate byte, or running off the end
of the buffer, is indetined behavior.  `i` is the index of the head of the
remaining list. -/
def findNul : List Byte → Nat → Except String Nat
  | [], _ => .error "read past the end of the buffer"
  | .nul :: _, i => .ok i
  | .chr _ :: rest, i => findNul rest (i + 1)
  | .indet :: _, _ => .error "read of an indeterminate byte"

/-- `strcat(dest, "...")`: finds the first terminator already in `dest` and
writes `'.' '.' '.' '\0'` from there; the four written bytes must fit in the
buffer. -/
def strcatDots (buf : List Byte) : Except String (List Byte) := do
  let p ← findNul buf 0
  if p + 4 ≤ buf.length then
    .ok (buf.take p ++ [Byte.chr '.', Byte.chr '.', Byte.chr '.', Byte.nul]
      ++ buf.drop (p + 4))
  else .error "strcat writes past the end of the buffer"

/-- The C string currently held by the buffer: the characters before the
first terminator. -/
def bufString (buf : List Byte) : Except String String := do
  let p ← findNul buf 0
  .ok ⟨(buf.take p).filterMap (fun b => match b with | .chr c => some c | _ => none)⟩

/-- `safe_strncpy` (src lines 231-240) on explicit buffer state; `n` is the
`size_t` cell budget (`bufferSize - 1` at both call sites).  When
`strlen(src) > n` the code runs `strncpy(dest, src, n - 3)` with the
subtraction performed on `size_t` — for `n < 3` the count wraps around
`2^64` — writing no terminator, and then `strcat(dest, "...")` appends at
the first terminator left over in the buffer; otherwise `src` is copied
whole, terminator-padded to `n` bytes, and `dest[n]` is set to the
terminator.  Returns the rendered C string and the new buffer state, or the
indetined behavior reached. -/
def safe_strncpy (buf : List Byte) (src : String) (n : Nat) :
    Except String (String × List Byte) :=
  if src.length > n then
    -- the size_t value of `n - 3` (`n` is a `size_t`, so `n < 2^64`)
    let count := (n + (2 ^ 64 - 3)) % 2 ^ 64
    do
      let buf1 ← strncpyModel buf src count
      let buf2 ← strcatDots buf1
      let s ← bufString buf2
      .ok (s, buf2)
  else do
    let buf1 ← strncpyModel buf src n
    if n < buf1.length then do
      let buf2 := buf1.set n Byte.nul
      let s ← bufString buf2
      .ok (s, buf2)
    else .error "write past the end of the buffer"

/-- The displayed cell text in the terminator-aligned case: the value
`safe_strncpy` leaves in the buffer when the byte at the truncation point
`n - 3` is already a terminator — which holds whenever the previously
rendered cell had at most `n - 3` characters, and in particular whenever no
truncation occurs (`L ≤ n`, the branch that terminator-pads and is
independent of the buffer's history).  The renderer below is stated with
this per-cell text; the claims proved about it (column selection, row
selection, marker cells) do not depend on the cell text, and the truncation
claim itself is settled against the buffer-state model `safe_strncpy`
(claim C5). -/
def truncateCellText (src : String) (n : Nat) : String :=
  if src.length > n then
    if n < 3 then src ++ "..." else src.take (n - 3) ++ "..."
  else src

/-- The header row (src lines 272-283): head headers, then the hidden-columns
marker when `hidden_columns > 0`, then the tail headers when
`cols_count > 4`. -/
def renderHeaderRow (r : QueryResult) : List String :=
  (headIdx r.cols_count).map (fun j => r.headers.getD j "")
    ++ (if hidden_columns r.cols_count > 0 then [hidden_columns_header r.cols_count] else [])
    ++ (if r.cols_count > 4 then (tailIdx r.cols_count).map (fun j => r.headers.getD j "") else [])

/-- One data row `i` (src lines 305-318): head cells and tail cells are pushed
through `safe_strncpy` over the shared buffer with the shared budget
`bufSz - 1` — rendered here as the terminator-aligned per-cell text
`truncateCellText` (see its comment; the claims stated about data rows do not
depend on the cell text); the marker column, when present, is the literal
`"..."`. -/
def renderDataRow (r : QueryResult) (bufSz : Nat) (i : Nat) : List String :=
  (headIdx r.cols_count).map (fun j => truncateCellText (cellAt r i j) (bufSz - 1))
    ++ (if hidden_columns r.cols_count > 0 then ["..."] else [])
    ++ (if r.cols_count > 4 then
          (tailIdx r.cols_count).map (fun j => truncateCellText (cellAt r i j) (bufSz - 1))
        else [])

/-- The synthetic ellipsis row (src lines 290-301): every displayed column is
the literal `"..."`. -/
def ellipsisRow (cols : Nat) : List String :=
  (headIdx cols).map (fun _ => "...")
    ++ (if hidden_columns cols > 0 then ["..."] else [])
    ++ (if cols > 4 then (tailIdx cols).map (fun _ => "...") else [])

/-- The row loop (src lines 286-319) as a function of the loop counter `i`:
when `rows_count > 10` and `i` reaches `rows_to_show = 5`, the ellipsis row is
emitted, `i` is set to `rows_count - rows_to_show`, that row is emitted by the
same iteration, and the loop continues from there.  The `fuel` argument bounds
the number of loop iterations; the C loop needs at most `rows_count + 1`
checks of its condition, and the characterization theorem below fixes the
output for that fuel. -/
def printRowsAux (r : QueryResult) (bufSz : Nat) : Nat → Nat → List (List String)
  | 0, _ => []
  | fuel + 1, i =>
    if i < r.rows_count then
      if r.rows_count > 10 ∧ i = 5 then
        ellipsisRow r.cols_count
          :: renderDataRow r bufSz (r.rows_count - 5)
          :: printRowsAux r bufSz fuel (r.rows_count - 5 + 1)
      else
        renderDataRow r bufSz i :: printRowsAux r bufSz fuel (i + 1)
    else []

/-- The body of the displayed table: the row loop started at `i = 0` with the
shared `bufferSize` (src lines 252-319). -/
def renderBody (r : QueryResult) : List (List String) :=
  printRowsAux r (bufferSize r) (r.rows_count + 1) 0

/-! ## Summary artifacts (src lines 326-345) -/

/-- `sizeof(QueryResult)` on the LP64 ABI the program targets: four 8-byte
pointers plus two 4-byte `int`s (src lines 9-16, 328). -/
def SIZEOF_QUERYRESULT : Nat := 40

/-- `sizeof(char *)` on LP64 (src lines 329-330). -/
def SIZEOF_CHAR_PTR : Nat := 8

/-- The byte total computed at src lines 328-338: struct overhead, the
`rows_count * cols_count` cell-pointer slots, the `3 * cols_count`
header/type-pointer slots, then one `strlen + 1` per cell string and per
header/native-type/portable-type string, accumulated by the two `for`
loops. -/
def estimatedSizeBytes (r : QueryResult) : Nat :=
  let s0 := SIZEOF_QUERYRESULT
  let s1 := s0 + r.rows_count * r.cols_count * SIZEOF_CHAR_PTR
  let s2 := s1 + r.cols_count * SIZEOF_CHAR_PTR * 3
  let s3 := s2 + (List.range (r.rows_count * r.cols_count)).foldl
    (fun acc i => acc + ((r.rows.getD i "").length + 1)) 0
  s3 + (List.range r.cols_count).foldl
    (fun acc i =>
      acc + ((r.headers.getD i "").length + 1)
          + ((r.mysql_types.getD i "").length + 1)
          + ((r.c_types.getD i "").length + 1)) 0

/-- `size_in_gb = (double)size / (1024 * 1024 * 1024)` (src line 339), modelled
as the exact rational: for these magnitudes the `double` division by a power
of two only adjusts the exponent and is exact. -/
def sizeInGB (r : QueryResult) : ℚ :=
  (estimatedSizeBytes r : ℚ) / ((1024 : ℚ) * 1024 * 1024)

/-- The row-count summary line `"Total number of rows: %d"` (src line 326),
printed from `result->rows_count` of the full result. -/
def totalRowsLine (r : QueryResult) : String :=
  "Total number of rows: " ++ toString r.rows_count

/-- The column legend (src lines 342-345): one entry per column of the full
result, pairing the header with its native and portable type names. -/
def columnLegend (r : QueryResult) : List String :=
  (List.range r.cols_count).map
    (fun i => (r.headers.getD i "") ++ " (" ++ (r.mysql_types.getD i "")
      ++ " => " ++ (r.c_types.getD i "") ++ ")")

/-! ## Concrete instances used by witnesses and counterexamples -/

/-- The §8 scenario: a 2-row, 2-column result with headers `id`/`name` and a
database NULL in the last cell. -/
def demoFields : List MysqlField :=
  [⟨"id", .MYSQL_TYPE_LONG⟩, ⟨"name", .MYSQL_TYPE_VAR_STRING⟩]

/-- Raw driver rows for the §8 scenario: `[["1","Alice"],["2",NULL]]`. -/
def demoRaws : List (List (Option String)) :=
  [[some "1", some "Alice"], [some "2", none]]

/-- The raw result the builder produces for the §8 scenario when every
allocation succeeds. -/
def demoRawResult : QueryResultRaw :=
  { rows := some [.str "1", .str "Alice", .str "2", .str "NULL"]
    headers := some [.str "id", .str "name"]
    mysql_types := some [.str "INT", .str "STRING"]
    c_types := some [.str "int32_t", .str "char*"]
    rows_count := 2
    cols_count := 2 }

/-- The §8 scenario at the value level, as the renderer sees it. -/
def demoResult : QueryResult :=
  { rows := ["1", "Alice", "2", "NULL"]
    headers := ["id", "name"]
    mysql_types := ["INT", "STRING"]
    c_types := ["int32_t", "char*"]
    rows_count := 2
    cols_count := 2 }

/-- The 10-byte shared buffer (shared width `W = 10`, budget `n = 9`) after
rendering the fitting cell `"12345678"`: eight characters, a padding
terminator at index 8 and the written terminator at index 9. -/
def demoBufAfterFirst : List Byte :=
  [.chr '1', .chr '2', .chr '3', .chr '4', .chr '5', .chr '6', .chr '7', .chr '8',
   .nul, .nul]

/-- The same 10-byte buffer after rendering the shorter fitting cell
`"12345"`: the terminator padding reaches back to index 5. -/
def demoBufAfterShort : List Byte :=
  [.chr '1', .chr '2', .chr '3', .chr '4', .chr '5', .nul, .nul, .nul, .nul, .nul]

/-- An 8-column, 2-row result exercising the hidden-columns marker. -/
def demoEight : QueryResult :=
  { rows := ["a1", "a2", "a3", "a4", "a5", "a6", "a7", "a8",
             "b1", "b2", "b3", "b4", "b5", "b6", "b7", "b8"]
    headers := ["c1", "c2", "c3", "c4", "c5", "c6", "c7", "c8"]
    mysql_types := ["INT", "INT", "INT", "INT", "INT", "INT", "INT", "INT"]
    c_types := ["int32_t", "int32_t", "int32_t", "int32_t",
                "int32_t", "int32_t", "int32_t", "int32_t"]
    rows_count := 2
    cols_count := 8 }

/-- A single-column, 11-row result exercising the row collapse. -/
def demoEleven : QueryResult :=
  { rows := ["r0", "r1", "r2", "r3", "r4", "r5", "r6", "r7", "r8", "r9", "r10"]
    headers := ["n"]
    mysql_types := ["INT"]
    c_types := ["int32_t"]
    rows_count := 11
    cols_count := 1 }

/-! ## Theorems -/

/-! ### Helper lemmas -/

theorem getD_append_lt {α : Type} (l1 l2 : List α) (d : α) (j : Nat)
    (hj : j < l1.length) : (l1 ++ l2).getD j d = l1.getD j d := by
  rw [List.getD_eq_getElem?_getD, List.getD_eq_getElem?_getD,
    List.getElem?_append_left hj]

theorem getD_append_ge {α : Type} (l1 l2 : List α) (d : α) (j : Nat)
    (hj : l1.length ≤ j) : (l1 ++ l2).getD j d = l2.getD (j - l1.length) d := by
  rw [List.getD_eq_getElem?_getD, List.getD_eq_getElem?_getD,
    List.getElem?_append_right hj]

theorem getD_map_range {α : Type} (f : Nat → α) (n j : Nat) (d : α) (hj : j < n) :
    ((List.range n).map f).getD j d = f j := by
  have hlen : j < ((List.range n).map f).length := by simpa using hj
  rw [List.getD_eq_getElem _ _ hlen, List.getElem_map, List.getElem_range]

theorem getD_map_range' {α : Type} (f : Nat → α) (s n j : Nat) (d : α) (hj : j < n) :
    ((List.range' s n).map f).getD j d = f (s + j) := by
  have hlen : j < ((List.range' s n).map f).length := by simpa using hj
  rw [List.getD_eq_getElem _ _ hlen, List.getElem_map, List.getElem_range']
  simp

theorem map_getD_range' {α : Type} (l : List α) (d : α) :
    ∀ (n a : Nat), a + n ≤ l.length →
      (List.range' a n).map (fun i => l.getD i d) = (l.drop a).take n := by
  intro n
  induction n with
  | zero => intro a _; simp
  | succ n ih =>
    intro a h
    have ha : a < l.length := by omega
    rw [List.range'_succ, List.map_cons, List.drop_eq_getElem_cons ha,
      List.take_succ_cons, ih (a + 1) (by omega), List.getD_eq_getElem l d ha]

theorem map_getD_range {α : Type} (l : List α) (d : α) (n : Nat) (h : n ≤ l.length) :
    (List.range n).map (fun i => l.getD i d) = l.take n := by
  rw [List.range_eq_range']
  simpa using map_getD_range' l d n 0 (by omega)

theorem foldl_add_map {α : Type} (g : α → Nat) :
    ∀ (l : List α) (a : Nat), l.foldl (fun acc x => acc + g x) a = a + (l.map g).sum := by
  intro l
  induction l with
  | nil => intro a; simp
  | cons x xs ih =>
    intro a
    rw [List.foldl_cons, ih (a + g x), List.map_cons, List.sum_cons]
    omega

/-! ### Claim C4: TypeMapper -/

/-- Claim C4 counterexample: the claim requires every temporal tag — YEAR
included — to map to the text portable type, but the code maps
`MYSQL_TYPE_YEAR` to the plain signed integer portable type `"int"`, unlike
the `"char*"` it assigns to the other temporal tags such as
`MYSQL_TYPE_DATE`. -/
theorem C4_year_not_text :
    (mysql_type_to_c_type .MYSQL_TYPE_YEAR).c_type = "int" ∧
    (mysql_type_to_c_type .MYSQL_TYPE_DATE).c_type = "char*" ∧
    (mysql_type_to_c_type .MYSQL_TYPE_YEAR).c_type ≠
      (mysql_type_to_c_type .MYSQL_TYPE_DATE).c_type := by
  decide

/-- Claim C4 as amended: `mysql_type_to_c_type` is total and pure (it is a
Lean function on the closed tag enumeration), always returns a pair of
non-empty names, and follows the spec's table except that `MYSQL_TYPE_YEAR`
maps to `("YEAR", "int")` — a plain signed integer, not text: unrecognized
tags map to `("UNKNOWN", "void")`; decimal/numeric to `double`; the
8/16/24-32/64-bit integer tags to the matching signed width; float/double to
`float`/`double`; bit to `uint8_t`; the remaining temporal tags
(timestamp/date/time/datetime) to text (`char*`); the
character/text/blob/json/enum/set/geometry category to text; and the null
tag to `void`. -/
theorem C4_type_mapping (t : enum_field_types) :
    (mysql_type_to_c_type t).mysql_type ≠ "" ∧
    (mysql_type_to_c_type t).c_type ≠ "" ∧
    (t = .MYSQL_TYPE_YEAR → mysql_type_to_c_type t = ⟨"YEAR", "int"⟩) ∧
    (isUnrecognizedTag t → mysql_type_to_c_type t = ⟨"UNKNOWN", "void"⟩) ∧
    ((t = .MYSQL_TYPE_DECIMAL ∨ t = .MYSQL_TYPE_NEWDECIMAL) →
      (mysql_type_to_c_type t).c_type = "double") ∧
    (t = .MYSQL_TYPE_TINY → (mysql_type_to_c_type t).c_type = "int8_t") ∧
    (t = .MYSQL_TYPE_SHORT → (mysql_type_to_c_type t).c_type = "int16_t") ∧
    ((t = .MYSQL_TYPE_LONG ∨ t = .MYSQL_TYPE_INT24) →
      (mysql_type_to_c_type t).c_type = "int32_t") ∧
    (t = .MYSQL_TYPE_LONGLONG → (mysql_type_to_c_type t).c_type = "int64_t") ∧
    (t = .MYSQL_TYPE_FLOAT → (mysql_type_to_c_type t).c_type = "float") ∧
    (t = .MYSQL_TYPE_DOUBLE → (mysql_type_to_c_type t).c_type = "double") ∧
    (t = .MYSQL_TYPE_BIT → (mysql_type_to_c_type t).c_type = "uint8_t") ∧
    ((t = .MYSQL_TYPE_TIMESTAMP ∨ t = .MYSQL_TYPE_DATE ∨ t = .MYSQL_TYPE_TIME ∨
        t = .MYSQL_TYPE_DATETIME) → (mysql_type_to_c_type t).c_type = "char*") ∧
    (isTextCategoryTag t → (mysql_type_to_c_type t).c_type = "char*") ∧
    (t = .MYSQL_TYPE_NULL → (mysql_type_to_c_type t).c_type = "void") := by
  cases t <;> decide

/-- Witness for `C4_type_mapping`: at the concrete tag `MYSQL_TYPE_YEAR` the
theorem's YEAR clause applies and yields the amended pair. -/
theorem C4_type_mapping_witness :
    mysql_type_to_c_type .MYSQL_TYPE_YEAR = ⟨"YEAR", "int"⟩ :=
  (C4_type_mapping .MYSQL_TYPE_YEAR).2.2.1 rfl

/-! ### Claim C5: cell truncation -/

/-- Claim C5 (code bug evaluation): with shared width `W = 10` (cell budget
`n = 9`), rendering the fitting cell `"12345678"` and then a twelve-character
cell through the shared buffer makes the second `safe_strncpy` copy six
characters without a terminator, so its `strcat` appends `"..."` at the stale
terminator at index 8 and writes through index 11 of the 10-byte buffer —
indetined behavior — instead of the claimed first `W - 4` characters followed
by `"..."` (`W - 1` characters, shown in the second conjunct).  After a
shorter first cell the very same second cell renders exactly as the claim
demands, so the truncation outcome depends on the buffer's history, not on
`(L, W)` alone.  And for `W = 2` (`n = 1`) the `size_t` count `n - 3` wraps
to `2^64 - 2` and `strncpy` itself writes far past the 2-byte buffer. -/
theorem C5_truncation_unterminated :
    safe_strncpy (freshBuffer 10) "12345678" 9 = .ok ("12345678", demoBufAfterFirst) ∧
    "AAAAAAAAAAAA".take (10 - 4) ++ "..." = "AAAAAA..." ∧
    safe_strncpy demoBufAfterFirst "AAAAAAAAAAAA" 9 =
      .error "strcat writes past the end of the buffer" ∧
    safe_strncpy (freshBuffer 10) "12345" 9 = .ok ("12345", demoBufAfterShort) ∧
    Except.map Prod.fst (safe_strncpy demoBufAfterShort "AAAAAAAAAAAA" 9) =
      .ok "AAAAAA..." ∧
    safe_strncpy (freshBuffer 2) "hello" 1 =
      .error "strncpy writes past the end of the buffer" := by
  decide

/-! ### Claim C6: column selection -/

/-- Claim C6: column selection is a function of `cols_count` alone (the
definitions only consult it): when `cols_count ≤ 3` the header row is exactly
all the headers with no marker; when `cols_count > 3` the first three
displayed columns are columns `[0,3)`; the marker labeled with
`hidden_columns = cols_count - 7` is present exactly when `cols_count > 7`;
the tail `[cols_count-4, cols_count)` is shown exactly when `cols_count > 4`
(so `cols_count = 4` shows only the head); and at most 8 columns are ever
displayed. -/
theorem C6_column_selection (r : QueryResult) (h : r.headers.length = r.cols_count) :
    (r.cols_count ≤ 3 → renderHeaderRow r = r.headers) ∧
    (3 < r.cols_count → (renderHeaderRow r).take 3 = r.headers.take 3) ∧
    (7 < r.cols_count → renderHeaderRow r =
      r.headers.take 3 ++ [hidden_columns_header r.cols_count]
        ++ r.headers.drop (r.cols_count - 4)) ∧
    (7 < r.cols_count → hidden_columns r.cols_count = r.cols_count - 7) ∧
    (4 < r.cols_count → r.cols_count ≤ 7 → renderHeaderRow r =
      r.headers.take 3 ++ r.headers.drop (r.cols_count - 4)) ∧
    (r.cols_count = 4 → renderHeaderRow r = r.headers.take 3) ∧
    (renderHeaderRow r).length ≤ 8 := by
  have hhead : (headIdx r.cols_count).map (fun j => r.headers.getD j "") =
      r.headers.take (min 3 r.cols_count) := by
    rw [headIdx]
    exact map_getD_range _ _ _ (by omega)
  have htail : 4 < r.cols_count →
      (tailIdx r.cols_count).map (fun j => r.headers.getD j "") =
        r.headers.drop (r.cols_count - 4) := by
    intro h4
    rw [tailIdx, map_getD_range' r.headers "" (r.cols_count - (r.cols_count - 4))
      (r.cols_count - 4) (by omega)]
    have hlen : (r.headers.drop (r.cols_count - 4)).length =
        r.cols_count - (r.cols_count - 4) := by
      rw [List.length_drop, h]
    rw [← hlen, List.take_length]
  refine ⟨?_, ?_, ?_, ?_, ?_, ?_, ?_⟩
  · intro h3
    have h0 : ¬ (hidden_columns r.cols_count > 0) := by
      rw [hidden_columns, if_neg (by omega)]; omega
    rw [renderHeaderRow, hhead, if_neg h0, if_neg (by omega),
      List.append_nil, List.append_nil]
    have hmin : min 3 r.cols_count = r.cols_count := by omega
    rw [hmin, ← h, List.take_length]
  · intro h3
    have hmin : min 3 r.cols_count = 3 := by omega
    rw [renderHeaderRow, hhead, hmin, List.append_assoc,
      List.take_append_eq_append_take, List.take_take]
    have hl1 : (r.headers.take 3).length = 3 := by
      rw [List.length_take]; omega
    rw [hl1]
    simp
  · intro h7
    have hmin : min 3 r.cols_count = 3 := by omega
    have hh : hidden_columns r.cols_count > 0 := by
      rw [hidden_columns, if_pos h7]; omega
    rw [renderHeaderRow, hhead, hmin, if_pos hh, if_pos (by omega),
      htail (by omega)]
  · intro h7
    rw [hidden_columns, if_pos h7]
  · intro h4 h7
    have hmin : min 3 r.cols_count = 3 := by omega
    have hh : ¬ (hidden_columns r.cols_count > 0) := by
      rw [hidden_columns, if_neg (by omega)]; omega
    rw [renderHeaderRow, hhead, hmin, if_neg hh, if_pos h4, htail h4,
      List.append_nil]
  · intro h4
    have hh : ¬ (hidden_columns r.cols_count > 0) := by
      rw [hidden_columns, if_neg (by omega)]; omega
    have hmin : min 3 r.cols_count = 3 := by omega
    rw [renderHeaderRow, hhead, hmin, if_neg hh, if_neg (by omega),
      List.append_nil, List.append_nil]
  · rw [renderHeaderRow]
    by_cases hh : hidden_columns r.cols_count > 0 <;>
      by_cases h4 : r.cols_count > 4 <;>
        simp [hh, h4, headIdx, tailIdx] <;> omega

/-- Witness for `C6_column_selection`: on the concrete 8-column result the
marker clause applies, showing head, `"<<+1 cols>>"` marker and tail. -/
theorem C6_column_selection_witness :
    renderHeaderRow demoEight =
      demoEight.headers.take 3 ++ [hidden_columns_header demoEight.cols_count]
        ++ demoEight.headers.drop (demoEight.cols_count - 4) :=
  (C6_column_selection demoEight (by decide)).2.2.1 (by decide)

/-! ### Claim C7: row selection -/

theorem printRowsAux_plain (r : QueryResult) (b : Nat) :
    ∀ fuel i, r.rows_count ≤ i + fuel → (r.rows_count ≤ 10 ∨ 5 < i) →
      printRowsAux r b fuel i =
        (List.range' i (r.rows_count - i)).map (renderDataRow r b) := by
  intro fuel
  induction fuel with
  | zero =>
    intro i hf _
    have hz : r.rows_count - i = 0 := by omega
    rw [hz]
    rfl
  | succ fuel ih =>
    intro i hf hside
    simp only [printRowsAux]
    by_cases hlt : i < r.rows_count
    · have hcond : ¬ (r.rows_count > 10 ∧ i = 5) := by
        rcases hside with hs | hs <;> intro hc <;> omega
      rw [if_pos hlt, if_neg hcond,
        ih (i + 1) (by omega) (hside.imp id (fun _ => by omega))]
      have hr : r.rows_count - i = (r.rows_count - (i + 1)) + 1 := by omega
      rw [hr, List.range'_succ, List.map_cons]
    · rw [if_neg hlt]
      have hz : r.rows_count - i = 0 := by omega
      rw [hz]
      rfl

theorem printRowsAux_head (r : QueryResult) (b : Nat) (h10 : 10 < r.rows_count) :
    ∀ fuel i, i ≤ 5 → r.rows_count + 1 ≤ fuel + i →
      printRowsAux r b fuel i =
        (List.range' i (5 - i)).map (renderDataRow r b)
          ++ ellipsisRow r.cols_count
            :: (List.range' (r.rows_count - 5) 5).map (renderDataRow r b) := by
  intro fuel
  induction fuel with
  | zero =>
    intro i hi hf
    exact absurd hf (by omega)
  | succ fuel ih =>
    intro i hi hf
    have hlt : i < r.rows_count := by omega
    by_cases h5 : i = 5
    · subst h5
      simp only [printRowsAux]
      rw [if_pos hlt, if_pos (by exact ⟨h10, by trivial⟩),
        printRowsAux_plain r b fuel (r.rows_count - 5 + 1) (by omega)
          (Or.inr (by omega))]
      have hz : r.rows_count - (r.rows_count - 5 + 1) = 4 := by omega
      rw [hz]
      have h54 : (5 : Nat) = 4 + 1 := rfl
      have hr5 : List.range' (r.rows_count - 5) 5 =
          (r.rows_count - 5) :: List.range' (r.rows_count - 5 + 1) 4 := by
        rw [h54, List.range'_succ]
      rw [hr5, List.map_cons]
      simp
    · have hcond : ¬ (r.rows_count > 10 ∧ i = 5) := fun hc => h5 hc.2
      simp only [printRowsAux]
      rw [if_pos hlt, if_neg hcond, ih (i + 1) (by omega) (by omega)]
      have hr : List.range' i (5 - i) = i :: List.range' (i + 1) (5 - (i + 1)) := by
        have h1 : 5 - i = (5 - (i + 1)) + 1 := by omega
        rw [h1, List.range'_succ]
      rw [hr, List.map_cons, List.cons_append]

/-- Claim C7: when `rows_count > 10` the body is rows `[0,5)` in order, then
exactly one synthetic ellipsis row, then rows `[rows_count-5, rows_count)` in
order; when `rows_count ≤ 10` it is all rows in fetch order with no ellipsis
row; and every cell of the ellipsis row is the literal `"..."`.  (At
`rows_count = 10` the first clause shows all 10 rows; at `rows_count = 11`
the second shows rows 0-4, the ellipsis row, and rows 6-10.) -/
theorem C7_row_selection (r : QueryResult) :
    (r.rows_count ≤ 10 →
      renderBody r = (List.range r.rows_count).map (renderDataRow r (bufferSize r))) ∧
    (10 < r.rows_count →
      renderBody r =
        (List.range 5).map (renderDataRow r (bufferSize r))
          ++ [ellipsisRow r.cols_count]
            ++ (List.range' (r.rows_count - 5) 5).map (renderDataRow r (bufferSize r))) ∧
    (∀ s ∈ ellipsisRow r.cols_count, s = "...") := by
  refine ⟨?_, ?_, ?_⟩
  · intro h10
    rw [renderBody,
      printRowsAux_plain r (bufferSize r) (r.rows_count + 1) 0 (by omega) (Or.inl h10),
      List.range_eq_range']
    simp
  · intro h10
    rw [renderBody,
      printRowsAux_head r (bufferSize r) h10 (r.rows_count + 1) 0 (by omega) (by omega),
      List.range_eq_range']
    simp
  · intro s hs
    rw [ellipsisRow] at hs
    rcases List.mem_append.1 hs with h1 | hC
    · rcases List.mem_append.1 h1 with hA | hB
      · obtain ⟨j, _, he⟩ := List.mem_map.1 hA
        exact he.symm
      · split at hB
        · simpa using hB
        · exact absurd hB (List.not_mem_nil s)
    · split at hC
      · obtain ⟨j, _, he⟩ := List.mem_map.1 hC
        exact he.symm
      · exact absurd hC (List.not_mem_nil s)

/-- Witness for `C7_row_selection`: the concrete 11-row result collapses to
rows 0-4, the ellipsis row, and the last 5 rows. -/
theorem C7_row_selection_witness :
    renderBody demoEleven =
      (List.range 5).map (renderDataRow demoEleven (bufferSize demoEleven))
        ++ [ellipsisRow demoEleven.cols_count]
          ++ (List.range' (demoEleven.rows_count - 5) 5).map
              (renderDataRow demoEleven (bufferSize demoEleven)) :=
  (C7_row_selection demoEleven).2.1 (by decide)

/-! ### Claim C10: marker column content -/

theorem getD_after3 (A : List String) (x : String) (C : List String)
    (hA : A.length = 3) : (A ++ [x] ++ C).getD 3 "" = x := by
  have h1 : 3 < (A ++ [x]).length := by simp [hA]
  rw [getD_append_lt _ _ _ _ h1, getD_append_ge _ _ _ _ (by omega), hA]
  rfl

/-- Claim C10: whenever the marker column is present (`cols_count > 7`), the
displayed column at index 3 — between head and tail — carries the
`hidden_columns_header` label in the header row, and the literal `"..."` in
every data row and in the synthetic ellipsis row. -/
theorem C10_marker_column (r : QueryResult) (b i : Nat) (h7 : 7 < r.cols_count) :
    (renderHeaderRow r).getD 3 "" = hidden_columns_header r.cols_count ∧
    (renderDataRow r b i).getD 3 "" = "..." ∧
    (ellipsisRow r.cols_count).getD 3 "" = "..." := by
  have hmin : min 3 r.cols_count = 3 := by omega
  have hh : hidden_columns r.cols_count > 0 := by
    rw [hidden_columns, if_pos h7]; omega
  refine ⟨?_, ?_, ?_⟩
  · rw [renderHeaderRow, if_pos hh]
    exact getD_after3 _ _ _ (by simp [headIdx, hmin])
  · rw [renderDataRow, if_pos hh]
    exact getD_after3 _ _ _ (by simp [headIdx, hmin])
  · rw [ellipsisRow, if_pos hh]
    exact getD_after3 _ _ _ (by simp [headIdx, hmin])

/-- Witness for `C10_marker_column`: the concrete 8-column result shows the
`"<<+1 cols>>"` label at index 3 of the header row and `"..."` at index 3 of
its first data row and of the ellipsis row. -/
theorem C10_marker_column_witness :
    (renderHeaderRow demoEight).getD 3 "" = hidden_columns_header demoEight.cols_count ∧
    (renderDataRow demoEight 5 0).getD 3 "" = "..." ∧
    (ellipsisRow demoEight.cols_count).getD 3 "" = "..." :=
  C10_marker_column demoEight 5 0 (by decide)

/-! ### Claim C8: NULL sentinel and rectangularity -/

theorem allocSlot_ne_null (alloc : Nat → Bool) (k : Nat) (s : String)
    (hne : allocSlot alloc k s ≠ Slot.nullPtr) : allocSlot alloc k s = Slot.str s := by
  by_cases ha : alloc k
  · rw [allocSlot, if_pos ha]
  · rw [allocSlot, if_neg ha] at hne
    exact absurd rfl hne

theorem buildColsLoop_ok (alloc : Nat → Bool) :
    ∀ (fs : List MysqlField) (st st' : BuildSt),
      buildColsLoop alloc fs st = .ok st' →
      st'.cells = st.cells ∧
      st'.headers = st.headers ++ fs.map (fun f => Slot.str f.name) ∧
      st'.mysql_types = st.mysql_types
        ++ fs.map (fun f => Slot.str (mysql_type_to_c_type f.ftype).mysql_type) ∧
      st'.c_types = st.c_types
        ++ fs.map (fun f => Slot.str (mysql_type_to_c_type f.ftype).c_type) := by
  intro fs
  induction fs with
  | nil =>
    intro st st' h
    simp only [buildColsLoop] at h
    injection h with h
    subst h
    simp
  | cons f fs ih =>
    intro st st' h
    simp only [buildColsLoop] at h
    split at h
    · next hcond =>
      obtain ⟨hc, hh2, hm2, hcc2⟩ := ih _ _ h
      dsimp only at hc hh2 hm2 hcc2
      rw [allocSlot_ne_null alloc st.k f.name hcond.1] at hh2
      rw [allocSlot_ne_null alloc (st.k + 1) _ hcond.2.1] at hm2
      rw [allocSlot_ne_null alloc (st.k + 2) _ hcond.2.2] at hcc2
      refine ⟨hc, ?_, ?_, ?_⟩
      · rw [List.map_cons, List.append_cons]; exact hh2
      · rw [List.map_cons, List.append_cons]; exact hm2
      · rw [List.map_cons, List.append_cons]; exact hcc2
    · simp at h

theorem buildCellsLoop_ok (alloc : Nat → Bool) :
    ∀ (vs : List (Option String)) (st st' : BuildSt),
      buildCellsLoop alloc vs st = .ok st' →
      st'.cells = st.cells ++ vs.map (fun v => Slot.str (v.getD "NULL")) ∧
      st'.headers = st.headers ∧
      st'.mysql_types = st.mysql_types ∧
      st'.c_types = st.c_types := by
  intro vs
  induction vs with
  | nil =>
    intro st st' h
    simp only [buildCellsLoop] at h
    injection h with h
    subst h
    simp
  | cons v vs ih =>
    intro st st' h
    simp only [buildCellsLoop] at h
    split at h
    · next hcond =>
      obtain ⟨hc, hh2, hm2, hcc2⟩ := ih _ _ h
      dsimp only at hc hh2 hm2 hcc2
      rw [allocSlot_ne_null alloc st.k _ hcond] at hc
      refine ⟨?_, hh2, hm2, hcc2⟩
      rw [List.map_cons, List.append_cons]; exact hc
    · simp at h

theorem flatCells_length (cols : Nat) :
    ∀ raws : List (List (Option String)),
      (flatCells cols raws).length = raws.length * cols := by
  intro raws
  induction raws with
  | nil => simp [flatCells]
  | cons row rest ih =>
    simp only [flatCells, List.map_cons, List.flatten_cons, List.length_append,
      List.length_map, List.length_range, List.length_cons]
    simp only [flatCells] at ih
    rw [ih, Nat.succ_mul]
    omega

theorem getD_map {α β : Type} (f : α → β) (l : List α) (idx : Nat) (d : β) (d' : α)
    (h : idx < l.length) : (l.map f).getD idx d = f (l.getD idx d') := by
  rw [List.getD_eq_getElem _ _ (by simpa using h), List.getD_eq_getElem _ _ h,
    List.getElem_map]

theorem flatCells_getD (cols : Nat) :
    ∀ (raws : List (List (Option String))) (i j : Nat),
      i < raws.length → j < cols →
      (flatCells cols raws).getD (i * cols + j) none = (raws.getD i []).getD j none := by
  intro raws
  induction raws with
  | nil => intro i j hi _; simp at hi
  | cons row rest ih =>
    intro i j hi hj
    have hfc : flatCells cols (row :: rest) =
        ((List.range cols).map (fun t => row.getD t none)) ++ flatCells cols rest := by
      simp [flatCells]
    rw [hfc]
    cases i with
    | zero =>
      have hz : 0 * cols + j = j := by omega
      rw [hz, getD_append_lt _ _ _ _ (by simpa using hj),
        getD_map_range _ _ _ _ hj]
      simp
    | succ i' =>
      have hmul : (i' + 1) * cols = i' * cols + cols := Nat.succ_mul i' cols
      have hidx : (i' + 1) * cols + j = cols + (i' * cols + j) := by omega
      rw [hidx, getD_append_ge _ _ _ _ (by simp)]
      have hsub : cols + (i' * cols + j)
          - ((List.range cols).map (fun t => row.getD t none)).length
          = i' * cols + j := by simp
      rw [hsub, ih i' j (by simpa using Nat.lt_of_succ_lt_succ hi) hj]
      simp

theorem padSlots_full (l : List Slot) (n : Nat) (h : l.length = n) :
    padSlots l n = l := by
  rw [padSlots, h, Nat.sub_self, List.replicate_zero, List.append_nil]

/-- Claim C8: whenever construction succeeds (any allocation oracle), the
cell grid of the resulting ResultSet is exactly the row-major image of the
driver rows: it has `rows_count * cols_count` entries (each driver row
contributing exactly `cols_count` cells), every entry is an allocated string
— never an absent/null slot — and the entry for row `i`, column `j` is the
driver value itself when present and the literal sentinel `"NULL"` exactly
when the driver value was a database NULL. -/
theorem C8_sentinel_rectangular (alloc : Nat → Bool) (fields : List MysqlField)
    (raws : List (List (Option String))) (r : QueryResultRaw)
    (h : execute_mysql_query_model alloc fields raws = .success r) :
    r.rows_count = raws.length ∧
    r.cols_count = fields.length ∧
    r.rows = some ((flatCells fields.length raws).map
      (fun v => Slot.str (v.getD "NULL"))) ∧
    ((flatCells fields.length raws).map
      (fun v => Slot.str (v.getD "NULL"))).length = raws.length * fields.length ∧
    (∀ s ∈ (flatCells fields.length raws).map (fun v => Slot.str (v.getD "NULL")),
      ∃ v : String, s = Slot.str v) ∧
    (∀ i j, i < raws.length → j < fields.length →
      ((flatCells fields.length raws).map
        (fun v => Slot.str (v.getD "NULL"))).getD (i * fields.length + j) .uninit
        = Slot.str (((raws.getD i []).getD j none).getD "NULL")) := by
  simp only [execute_mysql_query_model] at h
  split at h
  · simp at h
  split at h
  · simp at h
  split at h
  · simp at h
  next st hcols =>
    split at h
    · simp at h
    next st2 hcells =>
      injection h with h
      subst h
      obtain ⟨hc1, _, _, _⟩ := buildColsLoop_ok alloc fields _ _ hcols
      obtain ⟨hc2, _, _, _⟩ := buildCellsLoop_ok alloc _ _ _ hcells
      have hcells2 : st2.cells =
          (flatCells fields.length raws).map (fun v => Slot.str (v.getD "NULL")) := by
        rw [hc2, hc1]
        simp
      have hlen : ((flatCells fields.length raws).map
          (fun v => Slot.str (v.getD "NULL"))).length = raws.length * fields.length := by
        rw [List.length_map, flatCells_length]
      refine ⟨rfl, rfl, ?_, hlen, ?_, ?_⟩
      · show some (padSlots st2.cells (raws.length * fields.length)) = _
        rw [hcells2, padSlots_full _ _ hlen]
      · intro s hs
        obtain ⟨v, _, he⟩ := List.mem_map.1 hs
        exact ⟨v.getD "NULL", he.symm⟩
      · intro i j hi hj
        have hb : i * fields.length + j < (flatCells fields.length raws).length := by
          rw [flatCells_length]
          have h1 : (i + 1) * fields.length ≤ raws.length * fields.length :=
            Nat.mul_le_mul_right _ hi
          have h2 : (i + 1) * fields.length = i * fields.length + fields.length :=
            Nat.succ_mul i fields.length
          omega
        rw [getD_map _ _ _ _ none hb, flatCells_getD fields.length raws i j hi hj]

/-- Witness for `C8_sentinel_rectangular`: the all-allocations-succeed run on
the §8 scenario produces exactly `demoRawResult`, whose grid is the sentinel
image of the driver rows (the database NULL became the string `"NULL"`). -/
theorem C8_sentinel_rectangular_witness :
    demoRawResult.rows = some ((flatCells demoFields.length demoRaws).map
      (fun v => Slot.str (v.getD "NULL"))) :=
  (C8_sentinel_rectangular (fun _ => true) demoFields demoRaws demoRawResult
    (by decide)).2.2.1

/-! ### Claim C9: summary artifacts -/

theorem foldl_add3_map {α : Type} (g1 g2 g3 : α → Nat) :
    ∀ (l : List α) (a : Nat),
      l.foldl (fun acc x => acc + g1 x + g2 x + g3 x) a
        = a + (l.map g1).sum + (l.map g2).sum + (l.map g3).sum := by
  intro l
  induction l with
  | nil => intro a; simp
  | cons x xs ih =>
    intro a
    rw [List.foldl_cons, ih, List.map_cons, List.map_cons, List.map_cons,
      List.sum_cons, List.sum_cons, List.sum_cons]
    omega

theorem map_g_getD_range {α β : Type} (l : List α) (d : α) (g : α → β) :
    (List.range l.length).map (fun i => g (l.getD i d)) = l.map g := by
  have h1 : (List.range l.length).map (fun i => l.getD i d) = l := by
    rw [map_getD_range l d l.length le_rfl, List.take_length]
  calc (List.range l.length).map (fun i => g (l.getD i d))
      = ((List.range l.length).map (fun i => l.getD i d)).map g := by
        rw [List.map_map]; rfl
    _ = l.map g := by rw [h1]

/-- Claim C9: the reported total row count is `rows_count` of the full
ResultSet, and the estimated footprint equals the fixed struct overhead plus
`rows_count * cols_count` cell-pointer slots plus `3 * cols_count`
header/type-pointer slots plus the summed byte length (plus one terminator
each) of every cell, header, native type name and portable type name of the
full ResultSet, reported divided by `1024^3`. -/
theorem C9_summary (r : QueryResult)
    (h1 : r.rows.length = r.rows_count * r.cols_count)
    (h2 : r.headers.length = r.cols_count)
    (h3 : r.mysql_types.length = r.cols_count)
    (h4 : r.c_types.length = r.cols_count) :
    totalRowsLine r = "Total number of rows: " ++ toString r.rows_count ∧
    estimatedSizeBytes r =
      SIZEOF_QUERYRESULT + r.rows_count * r.cols_count * SIZEOF_CHAR_PTR
        + 3 * (r.cols_count * SIZEOF_CHAR_PTR)
        + ((r.rows.map (fun s => s.length + 1)).sum
            + (r.headers.map (fun s => s.length + 1)).sum
            + (r.mysql_types.map (fun s => s.length + 1)).sum
            + (r.c_types.map (fun s => s.length + 1)).sum) ∧
    sizeInGB r = (estimatedSizeBytes r : ℚ) / 1024 ^ 3 := by
  refine ⟨rfl, ?_, ?_⟩
  · have hrows : (List.range (r.rows_count * r.cols_count)).map
        (fun i => (r.rows.getD i "").length + 1)
        = r.rows.map (fun s => s.length + 1) := by
      rw [← h1]
      exact map_g_getD_range r.rows "" (fun s => s.length + 1)
    have hcols1 : (List.range r.cols_count).map
        (fun i => (r.headers.getD i "").length + 1)
        = r.headers.map (fun s => s.length + 1) := by
      rw [← h2]
      exact map_g_getD_range r.headers "" (fun s => s.length + 1)
    have hcols2 : (List.range r.cols_count).map
        (fun i => (r.mysql_types.getD i "").length + 1)
        = r.mysql_types.map (fun s => s.length + 1) := by
      rw [← h3]
      exact map_g_getD_range r.mysql_types "" (fun s => s.length + 1)
    have hcols3 : (List.range r.cols_count).map
        (fun i => (r.c_types.getD i "").length + 1)
        = r.c_types.map (fun s => s.length + 1) := by
      rw [← h4]
      exact map_g_getD_range r.c_types "" (fun s => s.length + 1)
    simp only [estimatedSizeBytes]
    rw [foldl_add_map (fun i => (r.rows.getD i "").length + 1), hrows,
      foldl_add3_map (fun i => (r.headers.getD i "").length + 1)
        (fun i => (r.mysql_types.getD i "").length + 1)
        (fun i => (r.c_types.getD i "").length + 1),
      hcols1, hcols2, hcols3]
    omega
  · rw [sizeInGB]
    norm_num

/-- Witness for `C9_summary`: the §8 scenario's 2×2 result satisfies the
footprint formula. -/
theorem C9_summary_witness :
    estimatedSizeBytes demoResult =
      SIZEOF_QUERYRESULT
        + demoResult.rows_count * demoResult.cols_count * SIZEOF_CHAR_PTR
        + 3 * (demoResult.cols_count * SIZEOF_CHAR_PTR)
        + ((demoResult.rows.map (fun s => s.length + 1)).sum
            + (demoResult.headers.map (fun s => s.length + 1)).sum
            + (demoResult.mysql_types.map (fun s => s.length + 1)).sum
            + (demoResult.c_types.map (fun s => s.length + 1)).sum) :=
  (C9_summary demoResult (by decide) (by decide) (by decide) (by decide)).2.1

/-! ### Claims C2 and C3: rollback and teardown -/

/-- Claim C2 (code bug evaluation): on a 1-column, 1-row result where the
sixth allocation — the `strdup` of `headers[0]` — fails, the rollback invoked
by the builder iterates over the full declared cell extent and passes the
still-uninitialized slot `rows[0]` to `free`: an allocation "after the
failure point" is referenced (indetined behavior), so the injected failure
does not produce the claimed clean rollback. -/
theorem C2_rollback_frees_uninitialized :
    execute_mysql_query_model (fun k => !(k == 5)) [⟨"id", .MYSQL_TYPE_LONG⟩]
        [[some "1"]] = .failed (.error "free of uninitialized pointer") := by
  decide

/-- Claim C3 (code bug evaluation): the teardown applied to a partially
constructed result whose `rows` backing array is absent (its `malloc`
failed) executes `result->rows[i]` with `rows == NULL` — a null-pointer
dereference — instead of skipping the absent field; the second conjunct shows
this exact state arising on the builder's own rollback path when the `rows`
array allocation (allocation #1) fails. -/
theorem C3_teardown_null_deref :
    free_query_result (some
      { rows := none, headers := some [.uninit], mysql_types := some [.uninit],
        c_types := some [.uninit], rows_count := 1, cols_count := 1 })
      = .error "null array dereference" ∧
    execute_mysql_query_model (fun k => !(k == 1)) [⟨"id", .MYSQL_TYPE_LONG⟩]
        [[some "1"]] = .failed (.error "null array dereference") := by
  decide

/-- Claim C1 (code bug evaluation): with the correct argument count, a
readable and parseable config, and the preset found, a failing
connection/query (`execute_mysql_query` returning `NULL`) still makes the
process exit with `EXIT_SUCCESS` (0), while every earlier failure does exit
nonzero.  The claim says a connection/query failure exits nonzero. -/
theorem C1_query_failure_exits_zero :
    mainExitCode 3 true true true false = EXIT_SUCCESS ∧
    EXIT_SUCCESS = 0 ∧
    mainExitCode 2 true true true true = EXIT_FAILURE ∧
    mainExitCode 3 false true true true = EXIT_FAILURE ∧
    mainExitCode 3 true false true true = EXIT_FAILURE ∧
    mainExitCode 3 true true false true = EXIT_FAILURE ∧
    EXIT_FAILURE ≠ 0 := by
  decide
